import Mathlib

/-
  Verification of the tower-defense simulation core.

  Shallow embedding of the simulation pipeline of the repository:
  * `src/src/gameplay/Projectile.ts` (onHit, hit counters, piercing),
  * `src/src/gameplay/Enemy.ts` (applyDamage),
  * `src/src/systems/CollisionSystem.ts` (swept ray-circle test),
  * `src/src/systems/CombatSystem.ts` (collision pair processing, explosions),
  * `src/unnamed/part_037` = SpawnSystem.ts (wave timing, HP scaling ladder),
  * `src/src/core/World.ts` (entity store, id assignment),
  * `src/src/core/Game.ts` (per-tick system order).

  JavaScript `number` values are modelled as real numbers (`ℝ`) where the code
  computes with `Math.sqrt`, and as rationals (`ℚ`) / naturals (`ℕ`) in the
  purely rational or integral parts.  `Math.round(x)` in JavaScript is
  `⌊x + 1/2⌋` (round half toward +∞), which is exactly Mathlib's `round`.
  `Math.floor` is `Int.floor`.
-/

/-! ## Projectile (src/src/gameplay/Projectile.ts) -/

/-- Projectile state: the fields of class `Projectile` that participate in
combat (`damage`, `piercing`, `maxHits`, `hitCount`, `alive`) together with
the explosion-effect fields of the blueprint-based variant of the class
(`explosion`, `explosionRadius`, `explosionDamage`). Position and lifetime
fields are not needed by the combat resolver and are omitted. -/
structure CProjectile where
  damage : ℝ
  piercing : Bool
  maxHits : ℕ
  hitCount : ℕ
  alive : Bool
  explosion : Bool
  explosionRadius : ℝ
  explosionDamage : ℝ

/-- Method `Projectile.onHit`: increments `hitCount`; a non-piercing projectile is
deactivated immediately; a piercing one is deactivated once
`hitCount >= maxHits`.  Returns the updated projectile and the boolean the
method returns (`true` when the projectile should be destroyed). -/
def CProjectile.onHit (p : CProjectile) : CProjectile × Bool :=
  let p1 : CProjectile := { p with hitCount := p.hitCount + 1 }
  if p1.piercing = false then ({ p1 with alive := false }, true)
  else if p1.maxHits ≤ p1.hitCount then ({ p1 with alive := false }, true)
  else (p1, false)

/-- The `Projectile` constructor: `hitCount` starts at 0, the entity base
class starts `alive = true`, and the explosion-effect fields default to
off/0 (they are overridden only by `fromBlueprint`). -/
def mkProjectile (damage : ℝ) (piercing : Bool) (maxHits : ℕ) : CProjectile :=
  { damage := damage, piercing := piercing, maxHits := maxHits,
    hitCount := 0, alive := true,
    explosion := false, explosionRadius := 0, explosionDamage := 0 }

/-- Iterate: `k` successive calls of `onHit` on the same projectile object. -/
def onHitIter (p : CProjectile) : ℕ → CProjectile
  | 0 => p
  | n + 1 => ((onHitIter p n).onHit).1

/-! ## Entity store (src/src/core/World.ts) -/

/-- The `World` entity container, with entities represented by their ids:
the backing `entities` set, the two deferred-mutation queues, and the
`nextId` counter (initialised to 1). -/
structure WorldState where
  entities : List ℕ
  entitiesToAdd : List ℕ
  entitiesToRemove : List ℕ
  nextId : ℕ

/-- Constructor `new World()`. -/
def initialWorld : WorldState :=
  { entities := [], entitiesToAdd := [], entitiesToRemove := [], nextId := 1 }

/-- Method `World.add`: assigns `entity.id = nextId++` and queues the entity;
returns the updated store and the id that was assigned. -/
def worldAdd (w : WorldState) : WorldState × ℕ :=
  ({ w with entitiesToAdd := w.entitiesToAdd ++ [w.nextId],
            nextId := w.nextId + 1 }, w.nextId)

/-- Method `World.remove`: queues the entity for removal (the `alive` flag lives on
the entity object, not in the store). -/
def worldRemove (w : WorldState) (i : ℕ) : WorldState :=
  { w with entitiesToRemove := w.entitiesToRemove ++ [i] }

/-- Method `World.update`: commits queued additions, then deletes queued removals.
(The final sweep of not-alive entities depends on the entity objects'
`alive` flags, which this id-level model does not track; it removes no
further ids here.) -/
def worldCommit (w : WorldState) : WorldState :=
  { w with
    entitiesToAdd := [], entitiesToRemove := [],
    entities := ((w.entities ++ w.entitiesToAdd).filter (fun i => !(w.entitiesToRemove.contains i))) }

/-- Method `World.clear`: empties the entity set and both queues.  It does NOT
touch `nextId`. -/
def worldClear (w : WorldState) : WorldState :=
  { w with entities := [], entitiesToAdd := [], entitiesToRemove := [] }

/-- The operations a client can perform on a `World` between observations. -/
inductive WorldOp where
  | add : WorldOp
  | remove : ℕ → WorldOp
  | commit : WorldOp
  | clear : WorldOp

/-- One store operation; returns the id assigned when the operation was an
`add`. -/
def worldStep (w : WorldState) : WorldOp → WorldState × Option ℕ
  | WorldOp.add => let r := worldAdd w; (r.1, some r.2)
  | WorldOp.remove i => (worldRemove w i, none)
  | WorldOp.commit => (worldCommit w, none)
  | WorldOp.clear => (worldClear w, none)

/-- Run a sequence of store operations, collecting every id assigned by an
`add`, in order. -/
def worldRun (w : WorldState) : List WorldOp → WorldState × List ℕ
  | [] => (w, [])
  | op :: ops =>
    let r := worldStep w op
    let rest := worldRun r.1 ops
    (rest.1, r.2.toList ++ rest.2)

/-! ## Spawn scheduler (src/unnamed/part_037 = SpawnSystem.ts) -/

/-- Kind of an encounter (`BossWarning.type` in the source): periodic
mini-boss or the single final boss. -/
inductive BossType where
  | mini : BossType
  | final : BossType
deriving DecidableEq

/-- Interface `BossWarning` of `BossSystem`
(src/src/systems/TowerSystem.ts, second packed document): the kind of the
imminent encounter, the countdown in seconds, and the boss key (keys
abstracted to naturals). -/
structure BossWarning where
  type : BossType
  timeRemaining : ℚ
  bossKey : ℕ
deriving DecidableEq

/-- The fields of class `BossSystem` read by its spawn-suppression guard:
`currentWarning` (non-null exactly during the Warning phase; its countdown
starts at the configured warning duration and decreases each tick) and
`isSpawningBoss` (set by `spawnBoss()` when the countdown expires, kept
true by `completeBossSpawn()` while the spawned boss is alive — the
Spawning and Active phases — and cleared by `update()` once the boss is no
longer in the world). -/
structure BossSystemState where
  currentWarning : Option BossWarning
  isSpawningBoss : Bool
deriving DecidableEq

/-- Method `BossSystem.isPreventingNormalSpawns`
(src/src/systems/TowerSystem.ts): `this.isSpawningBoss ||
(this.currentWarning !== null && this.currentWarning.timeRemaining <= 5)`
— true while a boss is spawning or alive, and during the LAST 5 seconds of
a warning countdown only. -/
def isPreventingNormalSpawns (b : BossSystemState) : Bool :=
  b.isSpawningBoss ||
    (match b.currentWarning with
     | none => false
     | some w => decide (w.timeRemaining ≤ 5))

/-- A wave band from the registry (`WaveBlueprint`): time window, spawn
interval, weighted enemy table (keys abstracted to naturals). -/
structure WaveBlueprint where
  timeStart : ℚ
  timeEnd : ℚ
  spawnInterval : ℚ
  enemies : List (ℕ × ℚ)
deriving DecidableEq

/-- Mutable state of `SpawnSystem`: the countdown timer and the cached
current wave. -/
structure SpawnState where
  spawnTimer : ℚ
  currentWave : Option WaveBlueprint
deriving DecidableEq

/-- Method `SpawnSystem.findCurrentWave`: first wave whose window `[timeStart,
timeEnd)` contains the given time, else `null`. -/
def findCurrentWave (waves : List WaveBlueprint) (time : ℚ) : Option WaveBlueprint :=
  waves.find? (fun w => decide (w.timeStart ≤ time) && decide (time < w.timeEnd))

/-- Method `SpawnSystem.update`: returns the new spawn state and whether a spawn
attempt (`spawnEnemy()`) was made this tick.  The first guard is
`this.bossSystem?.isPreventingNormalSpawns()`: with no boss system attached
the optional call is `undefined`, hence falsy.  Enemy-type selection and
creation inside `spawnEnemy` are randomised and are abstracted to the
boolean "a spawn request was issued". -/
def spawnSystemUpdate (boss : Option BossSystemState) (waves : List WaveBlueprint)
    (currentTime dt : ℚ) (st : SpawnState) : SpawnState × Bool :=
  if (boss.map isPreventingNormalSpawns).getD false then (st, false)
  else
    match findCurrentWave waves currentTime with
    | none => ({ st with currentWave := none }, false)
    | some w =>
      let timer := st.spawnTimer - dt
      if timer ≤ 0 then ({ spawnTimer := w.spawnInterval, currentWave := some w }, true)
      else ({ st with spawnTimer := timer, currentWave := some w }, false)

/-- The blueprint fields read by `applyHPScaling`: base hp and configured
maximum hp. -/
structure EnemyBlueprint where
  hp : ℚ
  maxHp : ℚ

/-- The registry maps consulted by `applyHPScaling`: `registry.enemies` and
`registry.bosses`, as association lists over natural-number keys. -/
structure SpawnRegistry where
  enemies : List (ℕ × EnemyBlueprint)
  bosses : List (ℕ × EnemyBlueprint)

/-- The enemy fields written by `applyHPScaling`. -/
structure ScalableEnemy where
  hp : ℚ
  maxHp : ℚ

/-- Method `SpawnSystem.applyHPScaling`: look the blueprint up in `enemies` then
`bosses` (skip scaling when unknown); compute the discrete 60-second
scaling step of a 600-second game, clamp it to the last step, linearly
interpolate between base and max hp, and store the rounded result in both
`hp` and `maxHp`. -/
def applyHPScaling (reg : SpawnRegistry) (currentTime : ℚ) (enemyKey : ℕ)
    (enemy : ScalableEnemy) : ScalableEnemy :=
  match (reg.enemies.lookup enemyKey).orElse (fun _ => reg.bosses.lookup enemyKey) with
  | none => enemy
  | some blueprint =>
    let scalingInterval : ℚ := 60
    let gameDuration : ℚ := 600
    let totalSteps : ℚ := gameDuration / scalingInterval
    let currentStep : ℤ := ⌊currentTime / scalingInterval⌋
    let clampedStep : ℚ := min (currentStep : ℚ) (totalSteps - 1)
    let scalingFactor : ℚ := clampedStep / (totalSteps - 1)
    let scaledHp : ℚ := blueprint.hp + (blueprint.maxHp - blueprint.hp) * scalingFactor
    { hp := (round scaledHp : ℤ), maxHp := (round scaledHp : ℤ) }

/-- The claim's formula, written from the spec's words: `base + (max − base)
× min(step(T), lastStep) / lastStep`, with `step(T)` one ladder step per
minute of run time (`⌊T/60⌋`) and `lastStep = 9` the last step index of the
configured ten-step ladder. -/
def specHP (base maxv T : ℚ) : ℚ :=
  base + (maxv - base) * min ((⌊T / 60⌋ : ℤ) : ℚ) 9 / 9

/-! ## Per-tick system order (src/src/core/Game.ts, Game.update) -/

/-- The components that act inside one `Game.update` tick while a run is
active. -/
inductive GameSystem where
  | spawn : GameSystem
  | movement : GameSystem
  | collision : GameSystem
  | combat : GameSystem
  | entityUpdate : GameSystem
  | worldCommit : GameSystem
deriving DecidableEq

/-- The order in which the pipeline components run inside a single
`Game.update` tick (Game.ts lines 218–246): `spawnSystem.update`,
`movementSystem.update`, `collisionSystem.update` — whose final
`bus.emit('CollisionsDetected', …)` (CollisionSystem.ts line 82)
synchronously invokes `CombatSystem.processCollisions`, the handler the
combat system registered on the bus in its constructor, so combat
processing of this tick's pairs happens immediately after detection —
then the per-entity `update` loop and finally `world.update()`, the
entity-store commit.  (The `combatSystem` block at lines 231–235 only
clears stale damage events and syncs a dev toggle.) -/
def gameTickOrder : List GameSystem :=
  [GameSystem.spawn, GameSystem.movement, GameSystem.collision,
   GameSystem.combat, GameSystem.entityUpdate, GameSystem.worldCommit]

/-- Position of a component in the tick. -/
def sysIndex (s : GameSystem) : ℕ := gameTickOrder.indexOf s

/-! ## Swept collision test (src/src/systems/CollisionSystem.ts) -/

/-- The coefficient `a = dot(d, d)` of the swept test, with `d` the
displacement from the projectile's previous to its current position. -/
def sweptA (prevPos pos : ℝ × ℝ) : ℝ :=
  (pos.1 - prevPos.1) * (pos.1 - prevPos.1) +
    (pos.2 - prevPos.2) * (pos.2 - prevPos.2)

/-- The coefficient `b = 2 * dot(f, d)` of the swept test, with `f` the
vector from the enemy center to the projectile's start. -/
def sweptB (prevPos pos enemyPos : ℝ × ℝ) : ℝ :=
  2 * ((prevPos.1 - enemyPos.1) * (pos.1 - prevPos.1) +
       (prevPos.2 - enemyPos.2) * (pos.2 - prevPos.2))

/-- The coefficient `c = dot(f, f) - combinedRadius²` of the swept test. -/
def sweptC (prevPos enemyPos : ℝ × ℝ) (combinedRadius : ℝ) : ℝ :=
  ((prevPos.1 - enemyPos.1) * (prevPos.1 - enemyPos.1) +
   (prevPos.2 - enemyPos.2) * (prevPos.2 - enemyPos.2)) -
    combinedRadius * combinedRadius

/-- Method `CollisionSystem.checkRayCircleCollision`: the swept (CCD) ray-circle
test.  The roots of `a·t² + b·t + c = 0` are the times at which the ray
from the previous to the current position is at the combined radius from
the enemy center.  The function returns true iff the discriminant is
non-negative and `t1` or `t2` lies in `[0, 1]`.

The conjunct `a ≠ 0` embeds the JavaScript behaviour at zero displacement:
there `a = 0` forces `b = 0` and the discriminant to be `0`, so `t1` and
`t2` evaluate to `0/0 = NaN`, every comparison on `NaN` is false, and the
function returns false. -/
def checkRayCircleCollision (prevPos pos enemyPos : ℝ × ℝ)
    (projectileRadius enemyRadius : ℝ) : Prop :=
  let a := sweptA prevPos pos
  let b := sweptB prevPos pos enemyPos
  let c := sweptC prevPos enemyPos (enemyRadius + projectileRadius)
  let discriminant := b * b - 4 * a * c
  ¬ discriminant < 0 ∧ a ≠ 0 ∧
    ((0 ≤ (-b - Real.sqrt discriminant) / (2 * a) ∧
      (-b - Real.sqrt discriminant) / (2 * a) ≤ 1) ∨
     (0 ≤ (-b + Real.sqrt discriminant) / (2 * a) ∧
      (-b + Real.sqrt discriminant) / (2 * a) ≤ 1))

/-- Squared distance from the point at parameter `t` of the segment from
`prevPos` to `pos` to the point `c`: the quantity the spec's geometric
reading of the swept test is about. -/
def segPointDistSq (prevPos pos c : ℝ × ℝ) (t : ℝ) : ℝ :=
  (prevPos.1 + t * (pos.1 - prevPos.1) - c.1) ^ 2 +
    (prevPos.2 + t * (pos.2 - prevPos.2) - c.2) ^ 2

/-! ## Enemy (src/src/gameplay/Enemy.ts) -/

/-- Enemy state: the fields of class `Enemy` used by the combat resolver. -/
structure CEnemy where
  pos : ℝ × ℝ
  hp : ℝ
  maxHp : ℝ
  xp : ℝ
  alive : Bool

/-- Method `Enemy.applyDamage`: subtract the amount from `hp`; when the result is
`≤ 0` the enemy is marked dead and the method returns true ("killed"). -/
noncomputable def CEnemy.applyDamage (e : CEnemy) (amount : ℝ) : CEnemy × Bool :=
  if e.hp - amount ≤ 0 then ({ e with hp := e.hp - amount, alive := false }, true)
  else ({ e with hp := e.hp - amount }, false)

/-! ## Combat resolver (src/src/systems/CombatSystem.ts) -/

/-- Method `CombatSystem.getDistance` (and `CollisionSystem.getDistance`):
Euclidean distance. -/
noncomputable def getDistance (p q : ℝ × ℝ) : ℝ :=
  Real.sqrt ((p.1 - q.1) * (p.1 - q.1) + (p.2 - q.2) * (p.2 - q.2))

/-- The pre-rounding distance falloff of `handleExplosion`:
`explosionDamage * (1 - distanceRatio * 0.5)` with
`distanceRatio = distance / explosionRadius` ("50% damage reduction at
edge"); `explosionDamage` is the already-rounded integer
`Math.round(projectile.damage * projectile.explosionDamage)`. -/
noncomputable def scaledExplosionDamageReal (explosionDamage : ℤ)
    (explosionRadius dist : ℝ) : ℝ :=
  (explosionDamage : ℝ) * (1 - dist / explosionRadius * (1 / 2))

/-- Local `scaledDamage` of `handleExplosion`: the falloff value rounded with
`Math.round`. -/
noncomputable def scaledExplosionDamage (explosionDamage : ℤ)
    (explosionRadius dist : ℝ) : ℤ :=
  round (scaledExplosionDamageReal explosionDamage explosionRadius dist)

/-- Combat-relevant world state plus the event streams the combat system
emits during one tick: `damageEvents` entries `(enemy index, amount)` for
enemy targets, and `kills`, the enemy indices carried by `EnemyKilled`
events, in emission order.  Entities are addressed by their index in the
lists (the source holds object references; an index plays the role of the
object identity). -/
structure CombatState where
  projectiles : List CProjectile
  enemies : List CEnemy
  damageEvents : List (ℕ × ℝ)
  kills : List ℕ

/-- The enemy loop of `CombatSystem.handleExplosion`, over the enemy list
with `i` the index of the first element: dead enemies are skipped; an
alive enemy within `explosionRadius` of the center takes the rounded
falloff damage when it is positive, with a damage event recorded and an
`EnemyKilled` event when `applyDamage` reports a kill.  Returns the
updated enemies and the damage/kill events in iteration order. -/
noncomputable def explodeList (explosionDamage : ℤ) (explosionRadius : ℝ)
    (center : ℝ × ℝ) : List CEnemy → ℕ → List CEnemy × List (ℕ × ℝ) × List ℕ
  | [], _ => ([], [], [])
  | e :: rest, i =>
    let r := explodeList explosionDamage explosionRadius center rest (i + 1)
    if e.alive = true then
      if getDistance center e.pos ≤ explosionRadius then
        let scaledDamage := scaledExplosionDamage explosionDamage explosionRadius
          (getDistance center e.pos)
        if 0 < scaledDamage then
          let ek := e.applyDamage (scaledDamage : ℝ)
          (ek.1 :: r.1, (i, (scaledDamage : ℝ)) :: r.2.1,
            if ek.2 then i :: r.2.2 else r.2.2)
        else (e :: r.1, r.2.1, r.2.2)
      else (e :: r.1, r.2.1, r.2.2)
    else (e :: r.1, r.2.1, r.2.2)

/-- Method `CombatSystem.handleExplosion`: computes the rounded explosion damage
`Math.round(projectile.damage * projectile.explosionDamage)` and applies
the falloff pass to every enemy in the world.  (The `ExplosionEvent`
pushed for visual effects carries no simulation state and is omitted.) -/
noncomputable def handleExplosion (projectile : CProjectile)
    (explosionCenter : ℝ × ℝ) (st : CombatState) : CombatState :=
  let explosionDamage : ℤ := round (projectile.damage * projectile.explosionDamage)
  let r := explodeList explosionDamage projectile.explosionRadius explosionCenter
    st.enemies 0
  { st with enemies := r.1, damageEvents := st.damageEvents ++ r.2.1,
            kills := st.kills ++ r.2.2 }

/-- Method `CombatSystem.handleProjectileEnemyCollision` for a pair
`(projectile index, enemy index)`: record the primary damage event, apply
the projectile's damage to the enemy, run the explosion pass when the
projectile carries one (centered on the enemy's position), call
`projectile.onHit()`, and finally emit `EnemyKilled` when the primary
`applyDamage` reported a kill.  No liveness check is made on either
entity. -/
noncomputable def handleProjectileEnemyCollision (st : CombatState)
    (pair : ℕ × ℕ) : CombatState :=
  match st.projectiles.get? pair.1, st.enemies.get? pair.2 with
  | some projectile, some enemy =>
    let st1 : CombatState :=
      { st with damageEvents := st.damageEvents ++ [(pair.2, projectile.damage)] }
    let dk := enemy.applyDamage projectile.damage
    let st2 : CombatState := { st1 with enemies := st1.enemies.set pair.2 dk.1 }
    let st3 : CombatState :=
      if projectile.explosion = true ∧ 0 < projectile.explosionRadius then
        handleExplosion projectile enemy.pos st2
      else st2
    let st4 : CombatState :=
      { st3 with projectiles := st3.projectiles.set pair.1 (projectile.onHit).1 }
    if dk.2 then { st4 with kills := st4.kills ++ [pair.2] } else st4
  | _, _ => st

/-- Method `CombatSystem.processCollisions`, restricted to the
`'projectile-enemy'` pairs (the `enemy-ground` and `enemy-tower` branches
touch neither projectiles nor enemy hit processing and are modelled
separately from these claims): the handler is applied to each collision
pair in order. -/
noncomputable def processCollisions (st : CombatState)
    (pairs : List (ℕ × ℕ)) : CombatState :=
  pairs.foldl handleProjectileEnemyCollision st

/-- Hit counts paired with max-hit counts of every projectile of a state. -/
def projHitCounts (st : CombatState) : List (ℕ × ℕ) :=
  st.projectiles.map (fun p => (p.hitCount, p.maxHits))

/-- Hit points of every enemy of a state. -/
def enemHps (st : CombatState) : List ℝ :=
  st.enemies.map (fun e => e.hp)

/-- Liveness flags of every enemy of a state. -/
def enemAlive (st : CombatState) : List Bool :=
  st.enemies.map (fun e => e.alive)

/-- The invariant the spec asserts for projectiles, guarded by liveness:
an alive projectile's hit count is strictly below its max-hit count. -/
def HitInv (p : CProjectile) : Prop :=
  p.alive = true → p.hitCount < p.maxHits

/-! ## Theorems -/

lemma worldStep_nextId (w : WorldState) (op : WorldOp) :
    w.nextId ≤ ((worldStep w op).1).nextId := by
  cases op <;>
    simp [worldStep, worldAdd, worldRemove, worldCommit, worldClear, Nat.le_succ]

lemma worldRun_ids (ops : List WorldOp) : ∀ w : WorldState,
    ((worldRun w ops).2).Pairwise (· < ·) ∧
      ∀ i ∈ (worldRun w ops).2, w.nextId ≤ i := by
  induction ops with
  | nil => intro w; simp [worldRun]
  | cons op ops ih =>
    intro w
    obtain ⟨hpw, hlb⟩ := ih (worldStep w op).1
    have hshape : (worldRun w (op :: ops)).2
        = (worldStep w op).2.toList ++ (worldRun (worldStep w op).1 ops).2 := rfl
    cases op with
    | add =>
      have h2 : ((worldStep w WorldOp.add).1).nextId = w.nextId + 1 := rfl
      rw [h2] at hlb
      rw [hshape]
      show ((w.nextId :: (worldRun (worldStep w WorldOp.add).1 ops).2).Pairwise (· < ·))
        ∧ ∀ i ∈ w.nextId :: (worldRun (worldStep w WorldOp.add).1 ops).2, w.nextId ≤ i
      refine ⟨List.pairwise_cons.mpr ⟨fun b hb => ?_, hpw⟩, fun i hi => ?_⟩
      · have := hlb b hb
        omega
      · rcases List.mem_cons.mp hi with h | h
        · omega
        · have := hlb i h
          omega
    | remove j =>
      have h2 : ((worldStep w (WorldOp.remove j)).1).nextId = w.nextId := rfl
      rw [h2] at hlb
      rw [hshape, show (worldStep w (WorldOp.remove j)).2 = none from rfl]
      exact ⟨by simpa using hpw, fun i hi => hlb i (by simpa using hi)⟩
    | commit =>
      have h2 : ((worldStep w WorldOp.commit).1).nextId = w.nextId := rfl
      rw [h2] at hlb
      rw [hshape, show (worldStep w WorldOp.commit).2 = none from rfl]
      exact ⟨by simpa using hpw, fun i hi => hlb i (by simpa using hi)⟩
    | clear =>
      have h2 : ((worldStep w WorldOp.clear).1).nextId = w.nextId := rfl
      rw [h2] at hlb
      rw [hshape, show (worldStep w WorldOp.clear).2 = none from rfl]
      exact ⟨by simpa using hpw, fun i hi => hlb i (by simpa using hi)⟩

/-- C10: Entity ids are never reused on the same `World`: over any sequence
of store operations starting from a fresh `World`, the ids assigned by the
successive `add` calls are strictly increasing (each `add` assigns a
strictly larger id than every id assigned before it); `nextId` never
decreases under any operation; and `clear` does not reset `nextId`. -/
theorem C10_ids_strictly_increase :
    (∀ ops : List WorldOp, ((worldRun initialWorld ops).2).Pairwise (· < ·))
    ∧ (∀ (w : WorldState) (op : WorldOp), w.nextId ≤ ((worldStep w op).1).nextId)
    ∧ (∀ w : WorldState, (worldClear w).nextId = w.nextId) :=
  ⟨fun ops => (worldRun_ids ops initialWorld).1,
   worldStep_nextId,
   fun _ => rfl⟩

lemma onHitIter_piercing (d : ℝ) (N : ℕ) :
    ∀ k, k < N → onHitIter (mkProjectile d true N) k
      = { mkProjectile d true N with hitCount := k } := by
  intro k
  induction k with
  | zero => intro _; rfl
  | succ n ih =>
    intro h
    rw [onHitIter, ih (by omega)]
    unfold CProjectile.onHit
    rw [if_neg (by simp [mkProjectile]), if_neg (by simp [mkProjectile]; omega)]

/-- C2: A non-piercing projectile starts alive and is deactivated by
exactly one `onHit` call (whatever its max-hit count `M`); a piercing
projectile with max-hit count `N ≥ 1` is still alive with hit count `k`
after hits `1 ≤ k ≤ N−1` and is deactivated exactly on its `N`-th hit. -/
theorem C2_onHit_deactivation (d : ℝ) (M N k : ℕ) (hN : 1 ≤ N) :
    (mkProjectile d false M).alive = true
    ∧ ((mkProjectile d false M).onHit).1.alive = false
    ∧ (1 ≤ k → k < N →
        (onHitIter (mkProjectile d true N) k).alive = true
        ∧ (onHitIter (mkProjectile d true N) k).hitCount = k)
    ∧ (onHitIter (mkProjectile d true N) N).alive = false
    ∧ (onHitIter (mkProjectile d true N) N).hitCount = N := by
  refine ⟨rfl, by simp [CProjectile.onHit, mkProjectile], fun _ hk => ?_, ?_, ?_⟩
  · rw [onHitIter_piercing d N k hk]
    exact ⟨rfl, rfl⟩
  · obtain ⟨m, rfl⟩ : ∃ m, N = m + 1 := ⟨N - 1, by omega⟩
    rw [onHitIter, onHitIter_piercing d (m + 1) m (by omega)]
    unfold CProjectile.onHit
    rw [if_neg (by simp [mkProjectile]), if_pos (by simp [mkProjectile])]
  · obtain ⟨m, rfl⟩ : ∃ m, N = m + 1 := ⟨N - 1, by omega⟩
    rw [onHitIter, onHitIter_piercing d (m + 1) m (by omega)]
    unfold CProjectile.onHit
    rw [if_neg (by simp [mkProjectile]), if_pos (by simp [mkProjectile])]

/-- C2 witness: with max-hit count 3, the projectile is alive after 2 hits
and deactivated after the 3rd. -/
theorem C2_witness :
    1 ≤ 3
    ∧ (onHitIter (mkProjectile 10 true 3) 2).alive = true
    ∧ (onHitIter (mkProjectile 10 true 3) 3).alive = false :=
  ⟨by norm_num,
   ((C2_onHit_deactivation 10 1 3 2 (by norm_num)).2.2.1 (by norm_num) (by norm_num)).1,
   (C2_onHit_deactivation 10 1 3 2 (by norm_num)).2.2.2.1⟩

/-- C5 counterexample: in the tick pipeline of `Game.update`, the Combat
Resolver does NOT run before the Spawn Scheduler — the spawn system is the
first system updated each tick, before collision detection and combat
processing. -/
theorem C5_counterexample :
    sysIndex GameSystem.spawn < sysIndex GameSystem.combat
    ∧ ¬ sysIndex GameSystem.combat < sysIndex GameSystem.spawn := by
  constructor <;> decide

/-- C5 amended: in every tick, the Collision Resolver runs strictly before
the Combat Resolver (the pairs detected this tick are consumed
synchronously through the event bus emit at the end of
`CollisionSystem.update`), but the Spawn Scheduler runs at the start of
the tick, before Collision and Combat, not after them; combat does run
before the entity-store commit. -/
theorem C5_tick_order :
    sysIndex GameSystem.collision < sysIndex GameSystem.combat
    ∧ sysIndex GameSystem.spawn < sysIndex GameSystem.collision
    ∧ sysIndex GameSystem.combat < sysIndex GameSystem.worldCommit := by
  refine ⟨?_, ?_, ?_⟩ <;> decide

/-- C6 counterexample: a tick in the Warning phase with 10 seconds
remaining on the countdown (the spec's configured warning duration is 10
seconds, so this is the start of every warning) and no boss spawning:
`isPreventingNormalSpawns` is FALSE, and `SpawnSystem.update` — facing an
active wave band with an expired spawn timer — issues an ordinary spawn
request.  Ordinary spawning is therefore not suppressed for the Warning
phase as a whole, only for its last 5 seconds. -/
theorem C6_counterexample :
    isPreventingNormalSpawns ⟨some ⟨BossType.mini, 10, 1⟩, false⟩ = false
    ∧ (spawnSystemUpdate (some ⟨some ⟨BossType.mini, 10, 1⟩, false⟩)
        [⟨0, 60, 2, [(1, 100)]⟩] 5 1 ⟨0, none⟩).2 = true := by
  refine ⟨by decide, ?_⟩
  norm_num [spawnSystemUpdate, findCurrentWave, isPreventingNormalSpawns]

/-- C6 amended: `SpawnSystem.update` issues no ordinary spawn request —
it returns immediately with the spawn state (timer, cached wave)
untouched — exactly in the ticks where `isPreventingNormalSpawns` holds:
while `isSpawningBoss` is set (from the moment the warning countdown
expires until the spawned boss leaves the world, covering the Spawning and
Active phases) or while a warning's remaining time is at most 5 seconds.
During the earlier part of a Warning (more than 5 seconds remaining),
ordinary spawning is NOT suppressed. -/
theorem C6_spawn_suppression (b : BossSystemState) (waves : List WaveBlueprint)
    (currentTime dt : ℚ) (st : SpawnState)
    (h : b.isSpawningBoss = true
      ∨ ∃ w, b.currentWarning = some w ∧ w.timeRemaining ≤ 5) :
    spawnSystemUpdate (some b) waves currentTime dt st = (st, false) := by
  have hguard : isPreventingNormalSpawns b = true := by
    rcases h with h | ⟨w, hw, hle⟩
    · simp [isPreventingNormalSpawns, h]
    · simp [isPreventingNormalSpawns, hw, hle]
  unfold spawnSystemUpdate
  simp [hguard]

/-- C6 witness: with a live boss (`isSpawningBoss` still set, the Active
phase) the spawn tick is suppressed; likewise in the last 5 seconds of a
warning. -/
theorem C6_witness :
    ((⟨none, true⟩ : BossSystemState).isSpawningBoss = true
      ∧ spawnSystemUpdate (some ⟨none, true⟩)
          [⟨0, 60, 2, [(1, 100)]⟩] 5 (1 / 10) ⟨3, none⟩ = (⟨3, none⟩, false))
    ∧ ((⟨some ⟨BossType.final, 3, 2⟩, false⟩ : BossSystemState).currentWarning
          = some ⟨BossType.final, 3, 2⟩ ∧ (3 : ℚ) ≤ 5)
      ∧ spawnSystemUpdate (some ⟨some ⟨BossType.final, 3, 2⟩, false⟩)
          [⟨0, 60, 2, [(1, 100)]⟩] 5 (1 / 10) ⟨3, none⟩ = (⟨3, none⟩, false) :=
  ⟨⟨rfl, C6_spawn_suppression ⟨none, true⟩ [⟨0, 60, 2, [(1, 100)]⟩] 5 (1 / 10)
      ⟨3, none⟩ (Or.inl rfl)⟩,
   ⟨rfl, by norm_num⟩,
   C6_spawn_suppression ⟨some ⟨BossType.final, 3, 2⟩, false⟩
     [⟨0, 60, 2, [(1, 100)]⟩] 5 (1 / 10) ⟨3, none⟩
     (Or.inr ⟨⟨BossType.final, 3, 2⟩, rfl, by norm_num⟩)⟩

/-- C7: for every enemy whose blueprint is found in the registry (enemies
first, then bosses), the HP written at spawn time `T` is exactly the
spec's ladder formula `base + (max − base) × min(step(T), lastStep) /
lastStep` — with `step(T) = ⌊T/60⌋` (one step per minute), `lastStep = 9`
the last step index of the 10-step ladder of a 600-second run — rounded to
the nearest integer; `maxHp` is overwritten with the same value. -/
theorem C7_hp_scaling_ladder (reg : SpawnRegistry) (T : ℚ) (key : ℕ)
    (e : ScalableEnemy) (bp : EnemyBlueprint)
    (h : (reg.enemies.lookup key).orElse (fun _ => reg.bosses.lookup key) = some bp) :
    (applyHPScaling reg T key e).hp = ((round (specHP bp.hp bp.maxHp T) : ℤ) : ℚ)
    ∧ (applyHPScaling reg T key e).maxHp
        = ((round (specHP bp.hp bp.maxHp T) : ℤ) : ℚ) := by
  unfold applyHPScaling
  rw [h]
  have harg :
      bp.hp + (bp.maxHp - bp.hp) * (min ((⌊T / 60⌋ : ℤ) : ℚ) (600 / 60 - 1) / (600 / 60 - 1))
        = specHP bp.hp bp.maxHp T := by
    unfold specHP
    norm_num
    ring
  constructor <;> simp only [] <;> rw [harg]

/-- C7 witness: an enemy with base HP 3 and max HP 30 spawned at `T = 125`
(ladder step 2) gets HP `3 + 27 × 2/9 = 9`. -/
theorem C7_witness :
    ((([(1, EnemyBlueprint.mk 3 30)] : List (ℕ × EnemyBlueprint)).lookup 1).orElse
        (fun _ => (([] : List (ℕ × EnemyBlueprint)).lookup 1)) = some (EnemyBlueprint.mk 3 30))
    ∧ (applyHPScaling ⟨[(1, EnemyBlueprint.mk 3 30)], []⟩ 125 1 ⟨0, 0⟩).hp
        = ((round (specHP 3 30 125) : ℤ) : ℚ)
    ∧ (applyHPScaling ⟨[(1, EnemyBlueprint.mk 3 30)], []⟩ 125 1 ⟨0, 0⟩).hp = 9 := by
  have h : (([(1, EnemyBlueprint.mk 3 30)] : List (ℕ × EnemyBlueprint)).lookup 1).orElse
      (fun _ => (([] : List (ℕ × EnemyBlueprint)).lookup 1)) = some (EnemyBlueprint.mk 3 30) := rfl
  have h2 := (C7_hp_scaling_ladder ⟨[(1, EnemyBlueprint.mk 3 30)], []⟩ 125 1 ⟨0, 0⟩
    (EnemyBlueprint.mk 3 30) h).1
  refine ⟨h, h2, ?_⟩
  have hfloor : (⌊(125 : ℚ) / 60⌋ : ℤ) = 2 := by
    rw [Int.floor_eq_iff]
    norm_num
  have hspec : specHP 3 30 125 = 9 := by
    unfold specHP
    rw [hfloor]
    norm_num
  rw [h2, hspec]
  norm_num [round_ofNat]

lemma onHit_hitInv (p : CProjectile) : HitInv ((p.onHit).1) := by
  unfold HitInv CProjectile.onHit
  by_cases hpi : p.piercing = false
  · rw [if_pos hpi]
    simp
  · rw [if_neg hpi]
    by_cases hm : p.maxHits ≤ p.hitCount + 1
    · rw [if_pos hm]
      simp
    · rw [if_neg hm]
      intro _
      simpa using Nat.lt_of_not_le hm

lemma handleExplosion_projectiles (p : CProjectile) (c : ℝ × ℝ)
    (st : CombatState) : (handleExplosion p c st).projectiles = st.projectiles := rfl

lemma handler_projectiles (st : CombatState) (pair : ℕ × ℕ) :
    (handleProjectileEnemyCollision st pair).projectiles = st.projectiles
    ∨ ∃ q : CProjectile, (handleProjectileEnemyCollision st pair).projectiles
        = st.projectiles.set pair.1 ((q.onHit).1) := by
  unfold handleProjectileEnemyCollision
  cases hP : st.projectiles.get? pair.1 with
  | none =>
    cases hE : st.enemies.get? pair.2 with
    | none => exact Or.inl rfl
    | some e => exact Or.inl rfl
  | some q =>
    cases hE : st.enemies.get? pair.2 with
    | none => exact Or.inl rfl
    | some e =>
      refine Or.inr ⟨q, ?_⟩
      dsimp only
      by_cases hex : q.explosion = true ∧ 0 < q.explosionRadius
      · rw [if_pos hex]
        by_cases hk : (e.applyDamage q.damage).2 = true
        · rw [if_pos hk]
          exact rfl
        · rw [if_neg hk]
          exact rfl
      · rw [if_neg hex]
        by_cases hk : (e.applyDamage q.damage).2 = true
        · rw [if_pos hk]
        · rw [if_neg hk]

lemma handler_preserves_hitInv (st : CombatState) (pair : ℕ × ℕ)
    (h : ∀ p ∈ st.projectiles, HitInv p) :
    ∀ p ∈ (handleProjectileEnemyCollision st pair).projectiles, HitInv p := by
  rcases handler_projectiles st pair with hq | ⟨q, hq⟩
  · rw [hq]
    exact h
  · rw [hq]
    intro p hp
    rcases List.mem_or_eq_of_mem_set hp with hp | rfl
    · exact h p hp
    · exact onHit_hitInv q

/-- C3 amended: while a projectile is alive its hit count stays strictly
below its max-hit count, through any sequence of collision pairs processed
by the combat resolver in one tick — provided every projectile satisfied
that bound at the start of the tick (a freshly constructed projectile with
max-hit count ≥ 1 does).  Once deactivated, however, the resolver keeps
calling `onHit` for later pairs of the same tick, so a dead projectile's
hit count can exceed its max-hit count (see the counterexample). -/
theorem C3_alive_hitCount_bound (st : CombatState) (pairs : List (ℕ × ℕ))
    (h : ∀ p ∈ st.projectiles, HitInv p) :
    ∀ p ∈ (processCollisions st pairs).projectiles,
      p.alive = true → p.hitCount < p.maxHits := by
  suffices hs : ∀ p ∈ (processCollisions st pairs).projectiles, HitInv p by
    exact hs
  induction pairs generalizing st with
  | nil => exact h
  | cons pr rest ih =>
    exact ih (handleProjectileEnemyCollision st pr) (handler_preserves_hitInv st pr h)

/-- A full-health enemy at a given position (blueprint hp 100). -/
noncomputable def exEnemyAt (x y : ℝ) : CEnemy :=
  { pos := (x, y), hp := 100, maxHp := 100, xp := 1, alive := true }

/-- Combat state with one non-piercing projectile (damage 10, max-hit
count 1) and two enemies, each of which collides with it this tick. -/
noncomputable def exStC3 : CombatState :=
  { projectiles := [mkProjectile 10 false 1],
    enemies := [exEnemyAt 0 0, exEnemyAt 40 0],
    damageEvents := [], kills := [] }

/-- C3 counterexample: one tick in which the same non-piercing projectile
(max-hit count 1) appears in two collision pairs: after
`processCollisions` its hit count is 2, exceeding its max-hit count 1 —
the resolver calls `onHit` again on the already-deactivated projectile. -/
theorem C3_counterexample :
    projHitCounts (processCollisions exStC3 [(0, 0), (0, 1)]) = [(2, 1)] := by
  have h1 : (100 : ℝ) - 10 ≤ 0 ↔ False := by norm_num
  simp [processCollisions, handleProjectileEnemyCollision, exStC3, exEnemyAt,
    CEnemy.applyDamage, CProjectile.onHit, mkProjectile, projHitCounts, h1]

/-- C3 witness: the amended invariant applied to a concrete tick: the
projectile of `exStC3` satisfies the liveness-guarded bound at tick start,
and after processing one pair every alive projectile still has hit count
strictly below its max-hit count. -/
theorem C3_witness :
    (∀ p ∈ exStC3.projectiles, HitInv p)
    ∧ ∀ p ∈ (processCollisions exStC3 [(0, 0)]).projectiles,
        p.alive = true → p.hitCount < p.maxHits := by
  have h : ∀ p ∈ exStC3.projectiles, HitInv p := by
    intro p hp
    simp only [exStC3, List.mem_singleton] at hp
    subst hp
    intro _
    norm_num [mkProjectile]
  exact ⟨h, C3_alive_hitCount_bound exStC3 [(0, 0)] h⟩

/-- Combat state with two non-piercing projectiles (damage 10 each) and a
single enemy with 3 hp which both projectiles hit this tick. -/
noncomputable def exStC4 : CombatState :=
  { projectiles := [mkProjectile 10 false 1, mkProjectile 10 false 1],
    enemies := [{ pos := (0, 0), hp := 3, maxHp := 3, xp := 1, alive := true }],
    damageEvents := [], kills := [] }

/-- C4: evaluation of the combat resolver at the failing input: the enemy
dies on the first pair (`alive = false` after processing it), yet the
second pair of the same tick is processed with no liveness re-check —
`applyDamage` runs again on the dead enemy (hp drops from −7 to −17, a
second damage event is recorded) and `applyDamage` returns `true` again,
so the `EnemyKilled` notification for the same enemy is emitted twice
(`kills = [0, 0]`). -/
theorem C4_dead_enemy_rehit :
    enemAlive (processCollisions exStC4 [(0, 0)]) = [false]
    ∧ (processCollisions exStC4 [(0, 0), (1, 0)]).kills = [0, 0]
    ∧ enemHps (processCollisions exStC4 [(0, 0), (1, 0)]) = [-17]
    ∧ (processCollisions exStC4 [(0, 0), (1, 0)]).damageEvents = [(0, 10), (0, 10)] := by
  have h1 : (3 : ℝ) - 10 ≤ 0 ↔ True := by norm_num
  have h2 : (3 : ℝ) - 10 - 10 ≤ 0 ↔ True := by norm_num
  have h3 : (3 : ℝ) - 10 - 10 = -17 := by norm_num
  refine ⟨?_, ?_, ?_, ?_⟩ <;>
    simp [processCollisions, handleProjectileEnemyCollision, exStC4,
      CEnemy.applyDamage, CProjectile.onHit, mkProjectile, enemAlive, enemHps,
      h1, h2, h3]

lemma getDistance_horizontal (a b y : ℝ) : getDistance (a, y) (b, y) = |a - b| := by
  unfold getDistance
  rw [show (a - b) * (a - b) + (y - y) * (y - y) = (a - b) ^ 2 by ring]
  exact Real.sqrt_sq_eq_abs _

lemma scaled_5_50_50 : scaledExplosionDamage 5 50 50 = 3 := by
  have h : scaledExplosionDamageReal 5 50 50 = 5 / 2 := by
    unfold scaledExplosionDamageReal
    norm_num
  unfold scaledExplosionDamage
  rw [h, round_eq, show (5 : ℝ) / 2 + 1 / 2 = 3 by norm_num, Int.floor_eq_iff]
  norm_num

lemma scaled_5_50_0 : scaledExplosionDamage 5 50 0 = 5 := by
  have h : scaledExplosionDamageReal 5 50 0 = 5 := by
    unfold scaledExplosionDamageReal
    norm_num
  unfold scaledExplosionDamage
  rw [h, round_eq, show (5 : ℝ) + 1 / 2 = 11 / 2 by norm_num, Int.floor_eq_iff]
  norm_num

lemma scaled_10_50_1 : scaledExplosionDamage 10 50 1 = 10 := by
  have h : scaledExplosionDamageReal 10 50 1 = 99 / 10 := by
    unfold scaledExplosionDamageReal
    norm_num
  unfold scaledExplosionDamage
  rw [h, round_eq, show (99 : ℝ) / 10 + 1 / 2 = 52 / 5 by norm_num, Int.floor_eq_iff]
  norm_num

lemma scaled_10_50_2 : scaledExplosionDamage 10 50 2 = 10 := by
  have h : scaledExplosionDamageReal 10 50 2 = 49 / 5 := by
    unfold scaledExplosionDamageReal
    norm_num
  unfold scaledExplosionDamage
  rw [h, round_eq, show (49 : ℝ) / 5 + 1 / 2 = 103 / 10 by norm_num, Int.floor_eq_iff]
  norm_num

/-- Projectile with damage 5, explosion radius 50, explosion-damage
fraction 1. -/
noncomputable def pExplC8a : CProjectile :=
  { damage := 5, piercing := false, maxHits := 1, hitCount := 0, alive := true,
    explosion := true, explosionRadius := 50, explosionDamage := 1 }

/-- Projectile with damage 10, explosion radius 50, explosion-damage
fraction 1. -/
noncomputable def pExplC8b : CProjectile :=
  { damage := 10, piercing := false, maxHits := 1, hitCount := 0, alive := true,
    explosion := true, explosionRadius := 50, explosionDamage := 1 }

/-- Enemies at distances 0 and 50 (exactly the radius) from the explosion
center `(30, 0)`. -/
noncomputable def stC8a : CombatState :=
  { projectiles := [], enemies := [exEnemyAt 30 0, exEnemyAt 80 0],
    damageEvents := [], kills := [] }

/-- Enemies at distances 1 and 2 (strictly inside the radius) from the
explosion center `(30, 0)`. -/
noncomputable def stC8b : CombatState :=
  { projectiles := [], enemies := [exEnemyAt 31 0, exEnemyAt 32 0],
    damageEvents := [], kills := [] }

/-- C8 counterexample: with center damage 5, the damage applied at exactly
the explosion radius is `round(2.5) = 3`, not 50% of the center value
(2.5); and with center damage 10, enemies at the distinct distances 1 and 2
(both strictly between 0 and the radius) receive the same rounded damage
10, so the applied damage does not strictly decrease with distance. -/
theorem C8_counterexample :
    enemHps (handleExplosion pExplC8a (30, 0) stC8a) = [95, 97]
    ∧ (100 : ℝ) - 97 ≠ (1 / 2) * ((100 : ℝ) - 95)
    ∧ (1 : ℝ) ≠ 2
    ∧ enemHps (handleExplosion pExplC8b (30, 0) stC8b) = [90, 90] := by
  refine ⟨?_, by norm_num, by norm_num, ?_⟩ <;>
    norm_num [handleExplosion, explodeList, enemHps, stC8a, stC8b, pExplC8a,
      pExplC8b, exEnemyAt, CEnemy.applyDamage, getDistance_horizontal,
      scaled_5_50_0, scaled_5_50_50, scaled_10_50_1, scaled_10_50_2]

/-- C8 amended: the PRE-ROUNDING falloff value of an explosion with center
damage `E > 0` and radius `R > 0` equals exactly 50% of the center value
at distance `R` and strictly decreases as distance increases; the damage
actually APPLIED is that value rounded to the nearest integer
(`Math.round`), hence only weakly decreasing in distance, and at the
radius it equals `round(E/2)`, which differs from exactly 50% of the
center damage whenever `E` is odd. -/
theorem C8_falloff_rule (E : ℤ) (R d1 d2 : ℝ) (hE : 0 < E) (hR : 0 < R) :
    scaledExplosionDamageReal E R R = (E : ℝ) / 2
    ∧ scaledExplosionDamageReal E R 0 = (E : ℝ)
    ∧ (d1 < d2 → scaledExplosionDamageReal E R d2 < scaledExplosionDamageReal E R d1)
    ∧ (d1 ≤ d2 → scaledExplosionDamage E R d2 ≤ scaledExplosionDamage E R d1) := by
  have hE' : (0 : ℝ) < (E : ℝ) := by exact_mod_cast hE
  have hR0 : R ≠ 0 := ne_of_gt hR
  refine ⟨?_, ?_, ?_, ?_⟩
  · unfold scaledExplosionDamageReal
    rw [div_self hR0]
    ring
  · unfold scaledExplosionDamageReal
    norm_num
  · intro h
    unfold scaledExplosionDamageReal
    have key : d1 / R < d2 / R := by gcongr
    have hmul : 0 < (E : ℝ) * (d2 / R - d1 / R) := mul_pos hE' (by linarith)
    nlinarith [hmul]
  · intro h
    unfold scaledExplosionDamage
    rw [round_eq, round_eq]
    apply Int.floor_mono
    unfold scaledExplosionDamageReal
    have key : d1 / R ≤ d2 / R := by gcongr
    have hmul : 0 ≤ (E : ℝ) * (d2 / R - d1 / R) := mul_nonneg hE'.le (by linarith)
    nlinarith [hmul]

/-- C8 witness: the falloff rule at damage 4, radius 50, distances 10 and
20. -/
theorem C8_witness :
    0 < (4 : ℤ) ∧ 0 < (50 : ℝ)
    ∧ scaledExplosionDamageReal 4 50 50 = ((4 : ℤ) : ℝ) / 2
    ∧ scaledExplosionDamage 4 50 20 ≤ scaledExplosionDamage 4 50 10 :=
  ⟨by norm_num, by norm_num,
   (C8_falloff_rule 4 50 10 20 (by norm_num) (by norm_num)).1,
   (C8_falloff_rule 4 50 10 20 (by norm_num) (by norm_num)).2.2.2 (by norm_num)⟩

lemma scaled_10_50_0 : scaledExplosionDamage 10 50 0 = 10 := by
  have h : scaledExplosionDamageReal 10 50 0 = 10 := by
    unfold scaledExplosionDamageReal
    norm_num
  unfold scaledExplosionDamage
  rw [h, round_eq, show (10 : ℝ) + 1 / 2 = 21 / 2 by norm_num, Int.floor_eq_iff]
  norm_num

lemma scaled_10_50_25 : scaledExplosionDamage 10 50 25 = 8 := by
  have h : scaledExplosionDamageReal 10 50 25 = 15 / 2 := by
    unfold scaledExplosionDamageReal
    norm_num
  unfold scaledExplosionDamage
  rw [h, round_eq, show (15 : ℝ) / 2 + 1 / 2 = 8 by norm_num, Int.floor_eq_iff]
  norm_num

/-- The C9 scenario: a projectile with damage 10, explosion radius 50 and
explosion-damage fraction 1.0; enemy A at the impact point `(30, 0)` and
enemy B at distance 25 (half the radius) from it. -/
noncomputable def pC9 : CProjectile :=
  { damage := 10, piercing := false, maxHits := 1, hitCount := 0,
    alive := true, explosion := true, explosionRadius := 50,
    explosionDamage := 1 }

/-- World state of the C9 scenario. -/
noncomputable def stC9 : CombatState :=
  { projectiles := [pC9],
    enemies := [exEnemyAt 30 0, exEnemyAt 55 0],
    damageEvents := [], kills := [] }

lemma stC9_run : enemHps (processCollisions stC9 [(0, 0)]) = [80, 92] := by
  norm_num [processCollisions, handleProjectileEnemyCollision, handleExplosion,
    explodeList, enemHps, stC9, pC9, exEnemyAt, CEnemy.applyDamage,
    CProjectile.onHit, getDistance_horizontal, scaled_10_50_0, scaled_10_50_25]

/-- C9 counterexample: in the scenario (damage 10, radius 50, fraction 1.0,
B at half the radius), B's hp drops from 100 to 92, i.e. B takes 8 area
damage, which is NOT `round(10 × (1 − 0.25×0.5)) = round(8.75) = 9`, the
amount the claim asserts. -/
theorem C9_counterexample :
    enemHps (processCollisions stC9 [(0, 0)]) = [80, 92]
    ∧ ((100 : ℝ) - 92) ≠ ((round ((10 : ℝ) * (1 - 1 / 4 * (1 / 2)))) : ℝ) := by
  refine ⟨stC9_run, ?_⟩
  rw [round_eq, show (10 : ℝ) * (1 - 1 / 4 * (1 / 2)) + 1 / 2 = 37 / 4 by norm_num,
    show (⌊(37 : ℝ) / 4⌋ : ℤ) = 9 by
      rw [Int.floor_eq_iff]
      norm_num]
  norm_num

/-- C9 amended: in the scenario, B takes exactly
`round(10 × (1 − 0.5×0.5)) = round(7.5) = 8` area damage: the falloff
multiplier is `1 − distanceRatio × 0.5` with `distanceRatio = 25/50 =
0.5`, so the factor is 0.75, not the claim's `1 − 0.25×0.5`. -/
theorem C9_area_damage_amount :
    enemHps (processCollisions stC9 [(0, 0)]) = [80, 92]
    ∧ ((100 : ℝ) - 92) = ((round ((10 : ℝ) * (1 - 25 / 50 * (1 / 2)))) : ℝ) := by
  refine ⟨stC9_run, ?_⟩
  rw [round_eq, show (10 : ℝ) * (1 - 25 / 50 * (1 / 2)) + 1 / 2 = 8 by norm_num,
    show (⌊(8 : ℝ)⌋ : ℤ) = 8 by
      rw [Int.floor_eq_iff]
      norm_num]
  norm_num

lemma quad_root_cases (a b c t : ℝ) (ha : a ≠ 0)
    (h : a * t ^ 2 + b * t + c = 0) :
    0 ≤ b * b - 4 * a * c
    ∧ (t = (-b - Real.sqrt (b * b - 4 * a * c)) / (2 * a)
       ∨ t = (-b + Real.sqrt (b * b - 4 * a * c)) / (2 * a)) := by
  have key : (2 * a * t + b) ^ 2 = b * b - 4 * a * c := by
    linear_combination (4 * a) * h
  have hD : 0 ≤ b * b - 4 * a * c := key ▸ sq_nonneg _
  have hs2 : Real.sqrt (b * b - 4 * a * c) ^ 2 = b * b - 4 * a * c :=
    Real.sq_sqrt hD
  have hz : (2 * a * t + b - Real.sqrt (b * b - 4 * a * c)) *
      (2 * a * t + b + Real.sqrt (b * b - 4 * a * c)) = 0 := by
    linear_combination key - hs2
  have h2a : (2 : ℝ) * a ≠ 0 := mul_ne_zero two_ne_zero ha
  refine ⟨hD, ?_⟩
  rcases mul_eq_zero.mp hz with h1 | h1
  · right
    rw [eq_div_iff h2a]
    linear_combination h1
  · left
    rw [eq_div_iff h2a]
    linear_combination h1

lemma quad_eval_of (a b c t : ℝ) (ha : a ≠ 0)
    (hD : 0 ≤ b * b - 4 * a * c)
    (ht : 2 * a * t + b = Real.sqrt (b * b - 4 * a * c)
      ∨ 2 * a * t + b = -Real.sqrt (b * b - 4 * a * c)) :
    a * t ^ 2 + b * t + c = 0 := by
  have hs2 : Real.sqrt (b * b - 4 * a * c) ^ 2 = b * b - 4 * a * c :=
    Real.sq_sqrt hD
  have key : a * t ^ 2 + b * t + c
      = ((2 * a * t + b) ^ 2 - (b * b - 4 * a * c)) / (4 * a) := by
    rw [eq_div_iff (mul_ne_zero (by norm_num : (4 : ℝ) ≠ 0) ha)]
    ring
  rcases ht with h | h <;> rw [key, h] <;> simp [hs2]

/-- C1 amended: for a projectile with nonzero per-tick displacement
(`a = dot(d,d) ≠ 0`), the swept test reports a hit iff some point of the
segment at parameter `t ∈ [0,1]` lies at distance EXACTLY the combined
radius from the enemy center (the segment crosses the combined-radius
circle); equivalently, iff the discriminant is non-negative and a root
lies in `[0,1]`.  Consequently it never reports a hit when every segment
point is strictly farther than the combined radius.  The segment merely
coming within the combined radius does NOT imply a reported hit: a segment
lying entirely strictly inside the circle has both roots outside `[0,1]`
(see the counterexample). -/
theorem C1_swept_hit_characterization (prev pos cen : ℝ × ℝ) (pr er : ℝ)
    (ha : sweptA prev pos ≠ 0) :
    (checkRayCircleCollision prev pos cen pr er ↔
      ∃ t, 0 ≤ t ∧ t ≤ 1 ∧ segPointDistSq prev pos cen t = (er + pr) ^ 2)
    ∧ ((∀ t, 0 ≤ t → t ≤ 1 → (er + pr) ^ 2 < segPointDistSq prev pos cen t) →
        ¬ checkRayCircleCollision prev pos cen pr er) := by
  set A := sweptA prev pos with hA
  set B := sweptB prev pos cen with hB
  set C := sweptC prev cen (er + pr) with hC
  have hbridge : ∀ t : ℝ, segPointDistSq prev pos cen t - (er + pr) ^ 2
      = A * t ^ 2 + B * t + C := by
    intro t
    rw [hA, hB, hC]
    unfold segPointDistSq sweptA sweptB sweptC
    ring
  have hcheck : checkRayCircleCollision prev pos cen pr er ↔
      (¬ B * B - 4 * A * C < 0 ∧ A ≠ 0 ∧
        ((0 ≤ (-B - Real.sqrt (B * B - 4 * A * C)) / (2 * A) ∧
          (-B - Real.sqrt (B * B - 4 * A * C)) / (2 * A) ≤ 1) ∨
         (0 ≤ (-B + Real.sqrt (B * B - 4 * A * C)) / (2 * A) ∧
          (-B + Real.sqrt (B * B - 4 * A * C)) / (2 * A) ≤ 1))) := Iff.rfl
  have h2A : (2 : ℝ) * A ≠ 0 := mul_ne_zero two_ne_zero ha
  have hiff : checkRayCircleCollision prev pos cen pr er ↔
      ∃ t, 0 ≤ t ∧ t ≤ 1 ∧ segPointDistSq prev pos cen t = (er + pr) ^ 2 := by
    rw [hcheck]
    constructor
    · rintro ⟨hD, -, hroot⟩
      rw [not_lt] at hD
      rcases hroot with ⟨h0, h1⟩ | ⟨h0, h1⟩
      · refine ⟨(-B - Real.sqrt (B * B - 4 * A * C)) / (2 * A), h0, h1, ?_⟩
        have ht : 2 * A * ((-B - Real.sqrt (B * B - 4 * A * C)) / (2 * A)) + B
            = -Real.sqrt (B * B - 4 * A * C) := by
          field_simp
          ring
        have hq := quad_eval_of A B C _ ha hD (Or.inr ht)
        have hb := hbridge ((-B - Real.sqrt (B * B - 4 * A * C)) / (2 * A))
        linarith
      · refine ⟨(-B + Real.sqrt (B * B - 4 * A * C)) / (2 * A), h0, h1, ?_⟩
        have ht : 2 * A * ((-B + Real.sqrt (B * B - 4 * A * C)) / (2 * A)) + B
            = Real.sqrt (B * B - 4 * A * C) := by
          field_simp
        have hq := quad_eval_of A B C _ ha hD (Or.inl ht)
        have hb := hbridge ((-B + Real.sqrt (B * B - 4 * A * C)) / (2 * A))
        linarith
    · rintro ⟨t, ht0, ht1, heq⟩
      have hq : A * t ^ 2 + B * t + C = 0 := by
        have hb := hbridge t
        rw [heq] at hb
        linarith
      obtain ⟨hD, hcases⟩ := quad_root_cases A B C t ha hq
      refine ⟨not_lt.mpr hD, ha, ?_⟩
      rcases hcases with rfl | rfl
      · exact Or.inl ⟨ht0, ht1⟩
      · exact Or.inr ⟨ht0, ht1⟩
  refine ⟨hiff, fun hfar hchk => ?_⟩
  obtain ⟨t, ht0, ht1, heq⟩ := hiff.mp hchk
  have hlt := hfar t ht0 ht1
  rw [heq] at hlt
  exact lt_irrefl _ hlt

/-- C1 counterexample: the segment from `(-1, 0)` to `(1, 0)` lies entirely
strictly inside the combined-radius circle (radius 11 around the origin —
at `t = 1/2` the segment point is the enemy center itself, distance 0), so
the segment certainly comes within the combined radius; yet the swept test
reports NO hit, because both roots (`t1 = -5`, `t2 = 6`) lie outside
`[0, 1]`.  This refutes the claimed equivalence with "comes within the
combined radius". -/
theorem C1_counterexample :
    segPointDistSq (-1, 0) (1, 0) (0, 0) (1 / 2) ≤ (10 + 1) ^ 2
    ∧ ¬ checkRayCircleCollision (-1, 0) (1, 0) (0, 0) 1 10 := by
  constructor
  · norm_num [segPointDistSq]
  · intro h
    have hA : sweptA (-1, 0) (1, 0) = 4 := by norm_num [sweptA]
    have hB : sweptB (-1, 0) (1, 0) (0, 0) = -4 := by norm_num [sweptB]
    have hC : sweptC (-1, 0) (0, 0) (10 + 1) = -120 := by norm_num [sweptC]
    simp only [checkRayCircleCollision] at h
    rw [hA, hB, hC] at h
    have hs : Real.sqrt ((-4 : ℝ) * -4 - 4 * 4 * -120) = 44 := by
      rw [show ((-4 : ℝ) * -4 - 4 * 4 * -120) = 44 ^ 2 by norm_num]
      exact Real.sqrt_sq (by norm_num)
    rw [hs] at h
    obtain ⟨-, -, hroot⟩ := h
    rcases hroot with ⟨h0, h1⟩ | ⟨h0, h1⟩
    · norm_num at h0
    · norm_num at h1

/-- C1 witness: a displacement from `(-2, 0)` to `(2, 0)` (so `a = 16 ≠ 0`)
past an enemy of radius 1 at the origin: the segment crosses the
combined-radius circle at `t = 1/4`, and the swept test reports the hit. -/
theorem C1_witness :
    sweptA (-2, 0) (2, 0) ≠ 0
    ∧ checkRayCircleCollision (-2, 0) (2, 0) (0, 0) 0 1 := by
  have ha : sweptA (-2, 0) (2, 0) ≠ 0 := by norm_num [sweptA]
  exact ⟨ha, ((C1_swept_hit_characterization (-2, 0) (2, 0) (0, 0) 0 1 ha).1).mpr
    ⟨1 / 4, by norm_num, by norm_num, by norm_num [segPointDistSq]⟩⟩
